import Mathlib

/-!
Verification of the bienici scraper (src/scraper.py, src/cleaner.py).

The scraper is shallowly embedded: Python JSON-like values become the
inductive `Value`, Python dicts become association lists, the MongoDB
collection becomes a list of documents, exceptions become `Except`,
and `datetime.utcnow()` becomes an explicit `now : Nat` parameter.
-/

/-- A Python/JSON value as it appears in the scraper's dicts.
`vnull` is Python `None`; `vtime` models a `datetime` object. -/
inductive Value where
  | vnull
  | vstr (s : String)
  | vnum (n : Int)
  | vbool (b : Bool)
  | vtime (t : Nat)
  | vlist (xs : List Value)
  | vdict (kvs : List (String × Value))

/-- A Python dict (also a MongoDB document): an association list with
first-match lookup; keys are unique in every dict the program builds. -/
abbrev PyDict := List (String × Value)

mutual
/-- Structural equality on values, used to model MongoDB equality when
matching the unique `id` field. -/
def beqValue : Value → Value → Bool
  | .vnull, .vnull => true
  | .vstr a, .vstr b => a == b
  | .vnum a, .vnum b => a == b
  | .vbool a, .vbool b => a == b
  | .vtime a, .vtime b => a == b
  | .vlist a, .vlist b => beqValueList a b
  | .vdict a, .vdict b => beqValueKvs a b
  | _, _ => false

def beqValueList : List Value → List Value → Bool
  | [], [] => true
  | x :: xs, y :: ys => beqValue x y && beqValueList xs ys
  | _, _ => false

def beqValueKvs : List (String × Value) → List (String × Value) → Bool
  | [], [] => true
  | (k, v) :: xs, (l, w) :: ys => k == l && beqValue v w && beqValueKvs xs ys
  | _, _ => false
end

/-- First-match lookup in a dict; `none` means the key is absent. -/
def dlookup : PyDict → String → Option Value
  | [], _ => none
  | (k, v) :: rest, key => if k == key then some v else dlookup rest key

/-- Python `d.get(k)`: `None` both when the key is absent and when it is
present with value `None`. -/
def pyGet (d : PyDict) (k : String) : Option Value :=
  match dlookup d k with
  | none => none
  | some .vnull => none
  | some v => some v

/-- Python truthiness of a value. -/
def pyTruthy : Value → Bool
  | .vnull => false
  | .vstr s => !(s == "")
  | .vnum n => !(n == 0)
  | .vbool b => b
  | .vtime _ => true
  | .vlist xs => !xs.isEmpty
  | .vdict kvs => !kvs.isEmpty

/-- Python truthiness of the result of a `.get` (None is falsy). -/
def pyTruthyO : Option Value → Bool
  | none => false
  | some v => pyTruthy v

/-- Python `len(v)`: defined on strings, lists and dicts, `TypeError`
(modelled as `Except.error`) on anything else, in particular on `None`. -/
def pyLen : Value → Except Unit Nat
  | .vstr s => .ok s.length
  | .vlist xs => .ok xs.length
  | .vdict kvs => .ok kvs.length
  | _ => .error ()

/-- Python `v <= 0` as used on the `price` field: defined on numbers and
booleans, `TypeError` on anything else. -/
def pyLeZero : Value → Except Unit Bool
  | .vnum n => .ok (n ≤ 0)
  | .vbool b => .ok ((if b then (1 : Int) else 0) ≤ 0)
  | _ => .error ()

/-- `extract_district_info` (src/scraper.py:120): returns four
`district_*` entries when the argument is a truthy dict, `{}` otherwise.
Entry values are `Option Value` with `none` standing for Python `None`. -/
def extract_district_info : Option Value → List (String × Option Value)
  | none => []
  | some v =>
    if !pyTruthy v then []
    else
      match v with
      | .vdict kvs =>
          [("district_name", pyGet kvs "name"),
           ("district_libelle", pyGet kvs "libelle"),
           ("district_id_polygone", pyGet kvs "id_polygone"),
           ("district_insee_code", pyGet kvs "insee_code")]
      | _ => []

/-- `extract_blur_info` (src/scraper.py:134): reads
`blur_data.get('position', {})`; if that is truthy but not a dict, the
`.get` attribute accesses raise (`Except.error`). -/
def extract_blur_info : Option Value → Except Unit (List (String × Option Value))
  | none => .ok []
  | some v =>
    if !pyTruthy v then .ok []
    else
      match v with
      | .vdict kvs =>
        let position := match dlookup kvs "position" with
          | none => Value.vdict []
          | some p => p
        if pyTruthy position then
          match position with
          | .vdict pk => .ok [("blur_latitude", pyGet pk "lat"),
                              ("blur_longitude", pyGet pk "lon")]
          | _ => .error ()
        else .ok []
      | _ => .ok []

/-- Field names read by `prepare_annonce` before the `'source'` constant. -/
def chunkA : List String := ["id", "reference"]

/-- Field names read by `prepare_annonce` between `'source'` and the
photos entries (src/scraper.py:162-248). -/
def chunkB : List String :=
  ["title", "description", "city", "postalCode", "departmentCode",
   "addressKnown", "displayDistrictName", "price", "agencyRentalFee",
   "safetyDeposit", "charges", "chargesIncluded", "chargesMethod",
   "rentExtra", "inventoryOfFixturesFees", "pricePerSquareMeter",
   "propertyType", "surfaceArea", "landSurfaceArea", "roomsQuantity",
   "bedroomsQuantity", "bathroomsQuantity", "showerRoomsQuantity",
   "toiletQuantity", "floor", "floorQuantity", "terracesQuantity",
   "newProperty", "yearOfConstruction", "condition", "isFurnished",
   "isStudio", "publicationDate", "modificationDate", "availableDate",
   "adType", "transactionType", "adTypeFR", "accountType",
   "accountDisplayName", "adCreatedByPro", "hasBalcony", "hasTerrace",
   "hasGarden", "hasPool", "hasCellar", "hasGarage", "hasParking",
   "hasSeparateToilet", "hasIntercom", "hasElevator", "hasFireplace",
   "hasAirConditioning", "hasDisabledAccess", "energyClassification",
   "energyValue", "greenhouseGazClassification", "greenhouseGazValue",
   "heating", "heatingType", "energyPerformanceDiagnosticDate",
   "useJuly2021EnergyPerformanceDiagnostic", "minEnergyConsumption",
   "maxEnergyConsumption", "epdFinalEnergyConsumption",
   "parkingPlacesQuantity", "garagesQuantity"]

/-- Field names read by `prepare_annonce` after the photos entries
(src/scraper.py:253-279). -/
def chunkC : List String :=
  ["virtualTour", "with3dModel", "agencyId", "agencyName", "agencyPhone",
   "agencyFeeUrl", "contactPhone", "showContactForm", "customerId",
   "nothingBehindForm", "highlightMailContact", "status",
   "priceHasDecreased", "isBienIciExclusive", "endOfPromotedAsExclusive",
   "hasGeorisquesMention", "opticalFiberStatus",
   "displayInsuranceEstimation", "descriptionTextLength"]

/-- `{k: data.get(k) for k in ks}`, keeping the order of `ks`. -/
def getEntries (a : PyDict) (ks : List String) : List (String × Option Value) :=
  ks.map (fun k => (k, pyGet a k))

/-- The final `{k: v for k, v in prepared.items() if v is not None}`:
drop every entry whose value is Python `None`. -/
def noneFilter (l : List (String × Option Value)) : PyDict :=
  l.filterMap (fun kv => match kv.2 with
    | none => none
    | some v => some (kv.1, v))

/-- `data.get('photos', [])` (src/scraper.py:251-252): default `[]` only
when the key is absent; an explicit `None` value is returned as is. -/
def photosValue (a : PyDict) : Value :=
  match dlookup a "photos" with
  | none => Value.vlist []
  | some v => v

/-- The entries of the `prepared` dict literal before the two `utcnow`
metadata timestamps (src/scraper.py:157-280). -/
def preSeg (a : PyDict) (cnt : Nat) : List (String × Option Value) :=
  getEntries a chunkA
  ++ [("source", some (Value.vstr "bienici"))]
  ++ getEntries a chunkB
  ++ [("photos", some (photosValue a)),
      ("photosCount", some (Value.vnum cnt))]
  ++ getEntries a chunkC

/-- All entries of the `prepared` dict after the `update` calls with the
district and blur info (appends, since their keys are fresh). -/
def prepEntries (now : Nat) (a : PyDict)
    (blur : List (String × Option Value)) (cnt : Nat) :
    List (String × Option Value) :=
  preSeg a cnt
  ++ [("scraped_at", some (Value.vtime now)),
      ("updated_at", some (Value.vtime now))]
  ++ extract_district_info (pyGet a "district") ++ blur

/-- `prepare_annonce` (src/scraper.py:148): builds the prepared document
(all fields, the constant `source`, `photosCount`, the two `utcnow`
timestamps, district and blur entries) and drops `None` values.
`Except.error` models an exception escaping the method (raised by
`len(data.get('photos', []))` on a non-sized value, or by
`position.get` on a non-dict truthy `position`). -/
def prepare_annonce (now : Nat) (a : PyDict) : Except Unit PyDict := do
  let blur ← extract_blur_info (pyGet a "blurInfo")
  let photosCount ← pyLen (photosValue a)
  .ok (noneFilter (prepEntries now a blur photosCount))

/-! ## The MongoDB store and `save_annonces` -/

/-- The `locations` collection: a list of documents with a unique index
on the `id` field. -/
abbrev Store := List PyDict

/-- The unique-index key of a document: its `id` field, with a missing
field indexed as null (MongoDB semantics). -/
def idxKey (d : PyDict) : Value :=
  match dlookup d "id" with
  | none => Value.vnull
  | some v => v

/-- `collection.find_one({'id': annonce_id})`: first document whose `id`
field equals the queried value (the queried values here are truthy,
hence non-null, so documents without `id` never match). -/
def findOne (store : Store) (idv : Value) : Option PyDict :=
  store.find? (fun d => match dlookup d "id" with
    | some v => beqValue v idv
    | none => false)

/-- Set one field of a document: replace the first occurrence in place,
or append the field if it is new. -/
def docSet (d : PyDict) (k : String) (v : Value) : PyDict :=
  match d with
  | [] => [(k, v)]
  | (k0, v0) :: rest =>
    if k0 == k then (k, v) :: rest else (k0, v0) :: docSet rest k v

/-- `{'$set': upd}` applied to one document. -/
def setFields (d : PyDict) (upd : PyDict) : PyDict :=
  upd.foldl (fun acc kv => docSet acc kv.1 kv.2) d

/-- `collection.update_one({'id': idv}, {'$set': upd})`: update the
first matching document, leave the rest untouched. -/
def updateOne : Store → Value → PyDict → Store
  | [], _, _ => []
  | d :: rest, idv, upd =>
    match dlookup d "id" with
    | some v =>
      if beqValue v idv then setFields d upd :: rest
      else d :: updateOne rest idv upd
    | none => d :: updateOne rest idv upd

/-- `collection.insert_one(doc)` under the unique index on `id`:
`DuplicateKeyError` (modelled as `Except.error`) when a stored document
has the same index key, otherwise append the document. -/
def insertOne (store : Store) (doc : PyDict) : Except Unit Store :=
  if store.any (fun d => beqValue (idxKey d) (idxKey doc)) then .error ()
  else .ok (store ++ [doc])

/-- The `{'inserted', 'updated', 'skipped'}` result of `save_annonces`. -/
structure SaveCounts where
  inserted : Nat
  updated : Nat
  skipped : Nat
deriving DecidableEq, Repr

/-- `prepared.get('adType') != 'rent'` is the negation of this test. -/
def adTypeRent : Option Value → Bool
  | some (.vstr s) => s == "rent"
  | _ => false

/-- One iteration of the `for annonce in annonces` loop of
`save_annonces` (src/scraper.py:304-343): prepare, check the natural
key, the price and the ad type, then look up and update or insert.
Every caught exception (including `DuplicateKeyError`) increments
`skipped`. -/
def saveStep (now : Nat) (acc : Store × SaveCounts) (a : PyDict) :
    Store × SaveCounts :=
  let store := acc.1
  let c := acc.2
  let skip : Store × SaveCounts :=
    (store, ⟨c.inserted, c.updated, c.skipped + 1⟩)
  match prepare_annonce now a with
  | .error _ => skip
  | .ok prepared =>
    match dlookup prepared "id" with
    | none => skip
    | some idv =>
      if !pyTruthy idv then skip
      else
        match dlookup prepared "price" with
        | none => skip
        | some pv =>
          if !pyTruthy pv then skip
          else
            match pyLeZero pv with
            | .error _ => skip
            | .ok true => skip
            | .ok false =>
              if !adTypeRent (dlookup prepared "adType") then skip
              else
                match findOne store idv with
                | some _ =>
                  (updateOne store idv prepared,
                   ⟨c.inserted, c.updated + 1, c.skipped⟩)
                | none =>
                  match insertOne store
                      (docSet prepared "created_at" (Value.vtime now)) with
                  | .ok newStore =>
                    (newStore, ⟨c.inserted + 1, c.updated, c.skipped⟩)
                  | .error _ => skip

/-- `save_annonces` (src/scraper.py:295): early return of zero counts on
an empty batch, otherwise the loop over the batch. -/
def save_annonces (now : Nat) (store : Store) (annonces : List PyDict) :
    Store × SaveCounts :=
  match annonces with
  | [] => (store, ⟨0, 0, 0⟩)
  | _ => annonces.foldl (saveStep now) (store, ⟨0, 0, 0⟩)

/-- Outcome of processing one record. -/
inductive Outcome where
  | insertedO
  | updatedO
  | skippedO
deriving DecidableEq, Repr

/-- One iteration of the `save_annonces` loop with the two database
interactions abstracted as inputs: `findResult` is what
`find_one({'id': ...})` returned, and `insertConflict` tells whether the
subsequent `insert_one` hits the unique-index constraint — which can
happen when a concurrent writer inserted the same key between the
existence check and the insert (the §5 concurrent mode). Mirrors
src/scraper.py:304-343 exactly: a `DuplicateKeyError` is caught and
counted as skipped. -/
def annonceStep (now : Nat) (a : PyDict) (findResult : Option PyDict)
    (insertConflict : Bool) : Outcome :=
  match prepare_annonce now a with
  | .error _ => .skippedO
  | .ok prepared =>
    match dlookup prepared "id" with
    | none => .skippedO
    | some idv =>
      if !pyTruthy idv then .skippedO
      else
        match dlookup prepared "price" with
        | none => .skippedO
        | some pv =>
          if !pyTruthy pv then .skippedO
          else
            match pyLeZero pv with
            | .error _ => .skippedO
            | .ok true => .skippedO
            | .ok false =>
              if !adTypeRent (dlookup prepared "adType") then .skippedO
              else
                match findResult with
                | some _ => .updatedO
                | none => if insertConflict then .skippedO else .insertedO

/-! ## `fetch_annonces` and the paging loop -/

/-- The outcome an HTTP attempt would have: a decoded JSON response, or
a `requests.exceptions.RequestException` (timeout, connection reset,
or an error status via `raise_for_status`). -/
inductive AttemptOutcome where
  | success (resp : PyDict)
  | requestError

/-- `fetch_annonces` (src/scraper.py:91), run against an environment
`attempts` giving the outcome the n-th HTTP attempt of this call would
have: the method performs the single attempt `attempts 0`; on failure it
increments `self.stats['errors']` and returns `None`. Returns the
response (or `None`) together with the new error counter. -/
def fetch_annonces (attempts : Nat → AttemptOutcome) (errors : Nat) :
    Option PyDict × Nat :=
  match attempts 0 with
  | .success r => (some r, errors)
  | .requestError => (none, errors + 1)

/-- A decoded API response as used by `scrape_with_filters`:
`response.get('realEstateAds', [])` and `response.get('total', 0)`. -/
structure ApiResponse where
  realEstateAds : List PyDict
  total : Nat

/-- Why the `while` loop of `scrape_with_filters` exited. -/
inductive StopReason where
  | noResponse
  | emptyPage
  | reachedTotal
  | maxPagesExhausted
deriving DecidableEq, Repr

/-- The state of one property type's crawl when the loop exits. -/
structure CrawlResult where
  reason : StopReason
  finalPage : Nat
  fromIndex : Nat
  store : Store
  stats : SaveCounts
  totalScraped : Nat

/-- The `while has_more and page_num <= max_pages` loop of
`scrape_with_filters` (src/scraper.py:360-411) for one property type,
run against an environment `fetch` giving the response of each page
request (`none` models `fetch_annonces` returning `None`). The fuel is
`max_pages + 1 - page_num`, so fuel 0 is exactly the loop condition
`page_num <= max_pages` failing. Each non-empty page is saved through
`save_annonces` and the offset advances by the page's length. -/
def scrape_pages (now : Nat) (fetch : Nat → Option ApiResponse) :
    Nat → Nat → Nat → Store → SaveCounts → Nat → CrawlResult
  | 0, pageNum, fromIndex, store, stats, tot =>
    ⟨.maxPagesExhausted, pageNum, fromIndex, store, stats, tot⟩
  | fuel + 1, pageNum, fromIndex, store, stats, tot =>
    match fetch pageNum with
    | none => ⟨.noResponse, pageNum, fromIndex, store, stats, tot⟩
    | some resp =>
      match resp.realEstateAds with
      | [] => ⟨.emptyPage, pageNum, fromIndex, store, stats, tot⟩
      | _ :: _ =>
        let r := save_annonces now store resp.realEstateAds
        let stats' : SaveCounts :=
          ⟨stats.inserted + r.2.inserted, stats.updated + r.2.updated,
           stats.skipped + r.2.skipped⟩
        let tot' := tot + resp.realEstateAds.length
        let fromIndex' := fromIndex + resp.realEstateAds.length
        if fromIndex' ≥ resp.total then
          ⟨.reachedTotal, pageNum, fromIndex', r.1, stats', tot'⟩
        else scrape_pages now fetch fuel (pageNum + 1) fromIndex' r.1 stats' tot'

/-- One property type's crawl in `scrape_with_filters`: pages from
`from_index = 0`, `page_num = 1`. -/
def scrape_with_filters (now : Nat) (fetch : Nat → Option ApiResponse)
    (maxPages : Nat) : CrawlResult :=
  scrape_pages now fetch maxPages 1 0 [] ⟨0, 0, 0⟩ 0

/-! ## The Partition Planner (spec §4.3) -/

/-- Modelled from the spec: the repository has no Partition Planner —
`scrape_with_filters` only pages a fixed filter — so the recursive
subdivision algorithm of spec §4.3 is taken from the spec's own words.
`probe low high` is the injected Prober result for the half-open range
`[low, high)` (`none` is the unknown sentinel); `gas` is the remaining
recursion budget `MAX_DEPTH - depth`, so `gas = 0` is the `depth ≥
MAX_DEPTH` floor. Step 1: count 0 gives no leaf, count ≤ `windowLimit`
gives one leaf. Step 2: at the recursion floor the range is a (capped)
leaf. Step 3: otherwise split at the midpoint and concatenate the
recursive plans in ascending order. Step 4: an unknown count forces a
subdivision unless at the floor. At `gas = 0` a nonzero or unknown
count yields the range as one leaf whether or not it is within the
window (within-limit leaf and capped leaf coincide). -/
def plan (probe : Nat → Nat → Option Nat) (windowLimit minSlice : Nat) :
    Nat → Nat → Nat → List (Nat × Nat)
  | 0, low, high =>
    match probe low high with
    | some 0 => []
    | some (_ + 1) => [(low, high)]
    | none => [(low, high)]
  | gas + 1, low, high =>
    match probe low high with
    | some 0 => []
    | some (c + 1) =>
      if c + 1 ≤ windowLimit then [(low, high)]
      else if high - low ≤ minSlice then [(low, high)]
      else
        plan probe windowLimit minSlice gas low (low + (high - low) / 2)
          ++ plan probe windowLimit minSlice gas (low + (high - low) / 2) high
    | none =>
      if high - low ≤ minSlice then [(low, high)]
      else
        plan probe windowLimit minSlice gas low (low + (high - low) / 2)
          ++ plan probe windowLimit minSlice gas (low + (high - low) / 2) high

/-- The ranges `l`, read in order, form an ascending, contiguous,
non-overlapping chain of non-empty half-open ranges exactly covering
`[low, high)`. -/
def chainFrom (low high : Nat) : List (Nat × Nat) → Bool
  | [] => low == high
  | (a, b) :: rest => a == low && decide (a < b) && chainFrom b high rest

/-- The union of a list of half-open ranges, as a set. -/
def unionRanges (l : List (Nat × Nat)) : Set Nat :=
  l.foldr (fun p s => Set.Ico p.1 p.2 ∪ s) ∅

/-! ## Derived predicates and concrete example inputs -/

/-- The three record-level gates of the `save_annonces` loop
(src/scraper.py:309-321) evaluated on a prepared document: truthy `id`,
truthy positive numeric-comparable `price`, and `adType == 'rent'`. -/
def passesChecks (d : PyDict) : Bool :=
  pyTruthyO (dlookup d "id") &&
  (match dlookup d "price" with
   | none => false
   | some pv =>
     pyTruthy pv &&
     (match pyLeZero pv with
      | .ok false => true
      | _ => false)) &&
  adTypeRent (dlookup d "adType")

/-- Whether the loop of `scrape_with_filters` stopped for the reason it
reports: an empty page, the offset reaching the response's own `total`,
the page budget running out, or `fetch_annonces` returning `None`. -/
def stopOk (fetch : Nat → Option ApiResponse) (maxPages : Nat)
    (r : CrawlResult) : Prop :=
  match r.reason with
  | .noResponse => fetch r.finalPage = none
  | .emptyPage => ∃ resp, fetch r.finalPage = some resp ∧ resp.realEstateAds = []
  | .reachedTotal => ∃ resp, fetch r.finalPage = some resp ∧
      resp.realEstateAds ≠ [] ∧ r.fromIndex ≥ resp.total
  | .maxPagesExhausted => r.finalPage = maxPages + 1

/-- A well-formed rental record: truthy id, positive price, adType rent. -/
def exGood : PyDict :=
  [("id", Value.vstr "X1"), ("price", Value.vnum 800),
   ("adType", Value.vstr "rent")]

/-- A record carrying a natural key but a zero price. -/
def exPrice0 : PyDict :=
  [("id", Value.vstr "X1"), ("price", Value.vnum 0),
   ("adType", Value.vstr "rent")]

/-- A record carrying a natural key and a positive price but a sale ad type. -/
def exBuy : PyDict :=
  [("id", Value.vstr "X2"), ("price", Value.vnum 500),
   ("adType", Value.vstr "buy")]

/-- A record with no natural key at all. -/
def exNoKey : PyDict :=
  [("price", Value.vnum 500), ("adType", Value.vstr "rent")]

/-- A record with one photo. -/
def exPhotos : PyDict :=
  [("id", Value.vstr "X3"), ("photos", Value.vlist [Value.vstr "p"])]

/-- An attempt environment whose first HTTP attempt fails and whose
second would succeed. -/
def exAttempts : Nat → AttemptOutcome :=
  fun n => if n = 0 then .requestError else .success [("total", Value.vnum 1)]

/-- A backend that always answers with an empty page. -/
def exFetchEmpty : Nat → Option ApiResponse := fun _ => some ⟨[], 0⟩

/-- A backend that always answers two records while declaring `total = 1`. -/
def exFetchOver : Nat → Option ApiResponse := fun _ => some ⟨[[], []], 1⟩

/-- A prober that reports zero matches for every range. -/
def probe0 : Nat → Nat → Option Nat := fun _ _ => some 0

/-- A prober that reports `high - low + 1` matches, never zero. -/
def probeWidth : Nat → Nat → Option Nat := fun l h => some (h - l + 1)

/-! ## Helper lemmas on dicts and the prepared document -/

theorem dlookup_append (l1 l2 : PyDict) (k : String) :
    dlookup (l1 ++ l2) k =
      match dlookup l1 k with
      | some v => some v
      | none => dlookup l2 k := by
  induction l1 with
  | nil => simp [dlookup]
  | cons e rest ih =>
    obtain ⟨k0, v0⟩ := e
    by_cases h : k0 == k <;> simp [dlookup, h, ih]

theorem noneFilter_append (l1 l2 : List (String × Option Value)) :
    noneFilter (l1 ++ l2) = noneFilter l1 ++ noneFilter l2 := by
  simp [noneFilter, List.filterMap_append]

theorem dlookup_noneFilter_of_keys_ne (l : List (String × Option Value))
    (k : String) (h : ∀ e ∈ l, e.1 ≠ k) :
    dlookup (noneFilter l) k = none := by
  induction l with
  | nil => simp [noneFilter, dlookup]
  | cons e rest ih =>
    obtain ⟨k0, v0⟩ := e
    have hk0 : k0 ≠ k := h (k0, v0) (by simp)
    have hrest : ∀ e ∈ rest, e.1 ≠ k := fun e he => h e (by simp [he])
    cases v0 with
    | none => simpa [noneFilter] using ih hrest
    | some v =>
      have : (k0 == k) = false := by simp [hk0]
      simpa [noneFilter, dlookup, this] using ih hrest

theorem dlookup_noneFilter_skip (l1 l2 : List (String × Option Value))
    (k : String) (h : ∀ e ∈ l1, e.1 ≠ k) :
    dlookup (noneFilter (l1 ++ l2)) k = dlookup (noneFilter l2) k := by
  rw [noneFilter_append, dlookup_append, dlookup_noneFilter_of_keys_ne l1 k h]

theorem keys_getEntries (a : PyDict) (ks : List String) :
    ∀ e ∈ getEntries a ks, e.1 ∈ ks := by
  intro e he
  simp only [getEntries, List.mem_map] at he
  obtain ⟨k, hk, rfl⟩ := he
  exact hk

theorem getEntries_keys (a : PyDict) (ks : List String) :
    (getEntries a ks).map Prod.fst = ks := by
  induction ks with
  | nil => simp [getEntries]
  | cons k rest ih => simpa [getEntries] using ih

theorem noneFilter_keys_sublist (l : List (String × Option Value)) :
    ((noneFilter l).map Prod.fst).Sublist (l.map Prod.fst) := by
  induction l with
  | nil => simp [noneFilter]
  | cons e rest ih =>
    obtain ⟨k0, v0⟩ := e
    cases v0 with
    | none =>
      simpa [noneFilter] using ih.trans (List.sublist_cons_self k0 _)
    | some v => simpa [noneFilter] using ih

theorem dlookup_docSet_self (d : PyDict) (k : String) (v : Value) :
    dlookup (docSet d k v) k = some v := by
  induction d with
  | nil => simp [docSet, dlookup]
  | cons e rest ih =>
    obtain ⟨k0, v0⟩ := e
    by_cases h : k0 == k <;> simp [docSet, dlookup, h, ih]

theorem dlookup_docSet_ne (d : PyDict) (k k' : String) (v : Value)
    (h : k' ≠ k) : dlookup (docSet d k v) k' = dlookup d k' := by
  have hkk : (k == k') = false := by
    simp [beq_iff_eq]
    exact fun he => h he.symm
  induction d with
  | nil => simp [docSet, dlookup, hkk]
  | cons e rest ih =>
    obtain ⟨k0, v0⟩ := e
    by_cases h0 : k0 == k
    · have hk0 : k0 = k := by simpa [beq_iff_eq] using h0
      simp [docSet, dlookup, h0, hkk, hk0]
    · by_cases h1 : k0 == k' <;> simp [docSet, dlookup, h0, h1, ih]

theorem dlookup_setFields_not_mem (d : PyDict) (upd : PyDict) (k : String)
    (h : k ∉ upd.map Prod.fst) :
    dlookup (setFields d upd) k = dlookup d k := by
  induction upd generalizing d with
  | nil => simp [setFields]
  | cons e rest ih =>
    obtain ⟨k0, v0⟩ := e
    simp only [List.map_cons, List.mem_cons] at h
    push_neg at h
    have : setFields d ((k0, v0) :: rest) = setFields (docSet d k0 v0) rest := by
      simp [setFields]
    rw [this, ih (docSet d k0 v0) h.2, dlookup_docSet_ne d k0 k v0 h.1]

theorem dlookup_setFields_nodup (d : PyDict) (upd : PyDict) (k : String)
    (h : (upd.map Prod.fst).Nodup) :
    dlookup (setFields d upd) k =
      match dlookup upd k with
      | some v => some v
      | none => dlookup d k := by
  induction upd generalizing d with
  | nil => simp [setFields, dlookup]
  | cons e rest ih =>
    obtain ⟨k0, v0⟩ := e
    simp only [List.map_cons, List.nodup_cons] at h
    have hstep : setFields d ((k0, v0) :: rest) = setFields (docSet d k0 v0) rest := by
      simp [setFields]
    by_cases hk : k0 == k
    · have hk0 : k0 = k := by simpa [beq_iff_eq] using hk
      subst hk0
      rw [hstep, dlookup_setFields_not_mem _ _ _ h.1,
        dlookup_docSet_self]
      simp [dlookup]
    · have hne : k ≠ k0 := fun he => hk (by simp [he])
      rw [hstep, ih _ h.2, dlookup_docSet_ne d k0 k v0 hne]
      simp [dlookup, hk]

/-! ## Structure of the prepared document -/

theorem pyGet_ne_null (d : PyDict) (k : String) :
    pyGet d k ≠ some Value.vnull := by
  unfold pyGet
  cases h : dlookup d k with
  | none => simp
  | some v => cases v <;> simp

/-- Every possible key of a district-info dict. -/
def districtKeys : List String :=
  ["district_name", "district_libelle", "district_id_polygone",
   "district_insee_code"]

/-- Every possible key of a blur-info dict. -/
def blurKeys : List String := ["blur_latitude", "blur_longitude"]

/-- Every key that can occur in a prepared document, in order. -/
def allPrepKeys : List String :=
  chunkA ++ ["source"] ++ chunkB ++ ["photos", "photosCount"] ++ chunkC
  ++ ["scraped_at", "updated_at"] ++ districtKeys ++ blurKeys

theorem district_keys_sublist (dd : Option Value) :
    ((extract_district_info dd).map Prod.fst).Sublist districtKeys := by
  cases dd with
  | none => simp [extract_district_info]
  | some v =>
    unfold extract_district_info
    by_cases h : pyTruthy v
    · cases v <;> simp [h, districtKeys]
    · simp [h]

theorem blur_keys_sublist (bb : Option Value)
    (l : List (String × Option Value)) (h : extract_blur_info bb = .ok l) :
    (l.map Prod.fst).Sublist blurKeys := by
  cases bb with
  | none =>
    simp only [extract_blur_info] at h
    cases h
    simp
  | some v =>
    unfold extract_blur_info at h
    by_cases ht : pyTruthy v
    · simp only [ht, Bool.not_true, Bool.false_eq_true, if_false] at h
      cases v <;> simp_all
      split at h
      · split at h
        · cases h
          simp [blurKeys]
        · cases h
      · cases h
        simp
    · simp only [ht, Bool.not_false, if_true] at h
      cases h
      simp

theorem district_values_ne_null (dd : Option Value) :
    ∀ e ∈ extract_district_info dd, e.2 ≠ some Value.vnull := by
  intro e he
  cases dd with
  | none => simp [extract_district_info] at he
  | some v =>
    by_cases h : pyTruthy v
    · rcases v with _ | s | n | b | t | xs | kvs <;>
        simp [extract_district_info, h] at he
      rcases he with rfl | rfl | rfl | rfl <;> exact pyGet_ne_null _ _
    · simp [extract_district_info, h] at he

theorem blur_values_ne_null (bb : Option Value)
    (l : List (String × Option Value)) (h : extract_blur_info bb = .ok l) :
    ∀ e ∈ l, e.2 ≠ some Value.vnull := by
  intro e he
  cases bb with
  | none =>
    simp only [extract_blur_info] at h
    cases h
    simp at he
  | some v =>
    by_cases ht : pyTruthy v
    · rcases v with _ | s | n | b | t | xs | kvs <;>
        simp [extract_blur_info, ht] at h <;>
        try (cases h; simp at he)
      split at h
      · split at h
        · cases h
          simp only [List.mem_cons, List.not_mem_nil, or_false] at he
          rcases he with rfl | rfl <;> exact pyGet_ne_null _ _
        · cases h
      · cases h
        simp at he
    · simp [extract_blur_info, ht] at h
      cases h
      simp at he

theorem preSeg_keys (a : PyDict) (cnt : Nat) :
    (preSeg a cnt).map Prod.fst =
      chunkA ++ ["source"] ++ chunkB ++ ["photos", "photosCount"] ++ chunkC := by
  simp [preSeg, getEntries_keys]

theorem prepEntries_keys_sublist (now : Nat) (a : PyDict)
    (blur : List (String × Option Value)) (cnt : Nat)
    (hblur : extract_blur_info (pyGet a "blurInfo") = .ok blur) :
    ((prepEntries now a blur cnt).map Prod.fst).Sublist allPrepKeys := by
  unfold prepEntries allPrepKeys
  simp only [List.map_append]
  rw [preSeg_keys]
  refine List.Sublist.append (List.Sublist.append ?_ ?_) ?_
  · exact (List.Sublist.refl _).append (by simp)
  · exact district_keys_sublist _
  · exact blur_keys_sublist _ _ hblur

theorem allPrepKeys_nodup : allPrepKeys.Nodup := by
  decide

theorem prepDoc_keys_nodup (now : Nat) (a : PyDict)
    (blur : List (String × Option Value)) (cnt : Nat)
    (hblur : extract_blur_info (pyGet a "blurInfo") = .ok blur) :
    ((noneFilter (prepEntries now a blur cnt)).map Prod.fst).Nodup :=
  ((noneFilter_keys_sublist _).trans
    (prepEntries_keys_sublist now a blur cnt hblur)).nodup allPrepKeys_nodup

theorem keys_ne_of_not_mem {l : List (String × Option Value)} {ks : List String}
    (hk : l.map Prod.fst = ks) {k : String} (h : k ∉ ks) :
    ∀ e ∈ l, e.1 ≠ k := by
  intro e he heq
  have hm : e.1 ∈ ks := hk ▸ List.mem_map_of_mem Prod.fst he
  rw [heq] at hm
  exact h hm


/-- First entry with the given key in a pre-filter entry list. -/
def lookupEntry : List (String × Option Value) → String → Option (Option Value)
  | [], _ => none
  | (k0, v) :: rest, k => if k0 == k then some v else lookupEntry rest k

theorem lookupEntry_append (l1 l2 : List (String × Option Value)) (k : String) :
    lookupEntry (l1 ++ l2) k =
      match lookupEntry l1 k with
      | some v => some v
      | none => lookupEntry l2 k := by
  induction l1 with
  | nil => simp [lookupEntry]
  | cons e rest ih =>
    obtain ⟨k0, v0⟩ := e
    by_cases h : k0 == k <;> simp [lookupEntry, h, ih]

theorem lookupEntry_keys_ne (l : List (String × Option Value)) (k : String)
    (h : ∀ e ∈ l, e.1 ≠ k) : lookupEntry l k = none := by
  induction l with
  | nil => simp [lookupEntry]
  | cons e rest ih =>
    obtain ⟨k0, v0⟩ := e
    have hk0 : (k0 == k) = false := by
      simp [beq_iff_eq]
      exact h (k0, v0) (by simp)
    simp [lookupEntry, hk0]
    exact ih (fun e he => h e (by simp [he]))

theorem lookupEntry_getEntries (a : PyDict) (ks : List String) (k : String) :
    lookupEntry (getEntries a ks) k =
      if k ∈ ks then some (pyGet a k) else none := by
  induction ks with
  | nil => simp [getEntries, lookupEntry]
  | cons k0 rest ih =>
    by_cases h : k0 == k
    · have : k0 = k := by simpa [beq_iff_eq] using h
      subst this
      simp [getEntries, lookupEntry]
    · have hne : ¬(k = k0) := fun he => by simp [he] at h
      simpa [getEntries, lookupEntry, h, hne] using ih

theorem dlookup_noneFilter_nodup (l : List (String × Option Value))
    (hnd : (l.map Prod.fst).Nodup) (k : String) :
    dlookup (noneFilter l) k = (lookupEntry l k).join := by
  induction l with
  | nil => simp [noneFilter, dlookup, lookupEntry]
  | cons e rest ih =>
    obtain ⟨k0, v0⟩ := e
    simp only [List.map_cons, List.nodup_cons] at hnd
    by_cases h : k0 == k
    · have hk0 : k0 = k := by simpa [beq_iff_eq] using h
      subst hk0
      cases v0 with
      | none =>
        simp only [noneFilter, List.filterMap_cons]
        have : ∀ e ∈ rest, e.1 ≠ k0 := by
          intro e he heq
          exact hnd.1 (heq ▸ List.mem_map_of_mem Prod.fst he)
        rw [show (List.filterMap _ rest : PyDict) = noneFilter rest from rfl,
          dlookup_noneFilter_of_keys_ne rest k0 this]
        simp [lookupEntry]
      | some v =>
        simp [noneFilter, dlookup, lookupEntry, h]
    · cases v0 with
      | none => simpa [noneFilter, lookupEntry, h] using ih hnd.2
      | some v => simpa [noneFilter, dlookup, lookupEntry, h] using ih hnd.2

/-- Lookup in a successfully prepared document is the first matching
entry of the entry list (keys are unique). -/
theorem prepDoc_lookup (now : Nat) (a : PyDict)
    (blur : List (String × Option Value)) (cnt : Nat)
    (hblur : extract_blur_info (pyGet a "blurInfo") = .ok blur) (k : String) :
    dlookup (noneFilter (prepEntries now a blur cnt)) k =
      (lookupEntry (prepEntries now a blur cnt) k).join :=
  dlookup_noneFilter_nodup _
    ((prepEntries_keys_sublist now a blur cnt hblur).nodup allPrepKeys_nodup) k

theorem district_lookupEntry_ne (dd : Option Value) (k : String)
    (h : k ∉ districtKeys) :
    lookupEntry (extract_district_info dd) k = none :=
  lookupEntry_keys_ne _ _ (fun _e he heq =>
    h ((district_keys_sublist dd).subset (heq ▸ List.mem_map_of_mem Prod.fst he)))

theorem blur_lookupEntry_ne (bb : Option Value)
    (l : List (String × Option Value)) (k : String)
    (hb : extract_blur_info bb = .ok l) (h : k ∉ blurKeys) :
    lookupEntry l k = none :=
  lookupEntry_keys_ne _ _ (fun _e he heq =>
    h ((blur_keys_sublist bb l hb).subset (heq ▸ List.mem_map_of_mem Prod.fst he)))

theorem lookupEntry_timestamps (t : Nat) (k : String)
    (hs : k ≠ "scraped_at") (hu : k ≠ "updated_at") :
    lookupEntry [("scraped_at", some (Value.vtime t)),
                 ("updated_at", some (Value.vtime t))] k = none := by
  have h1 : ("scraped_at" == k) = false := by
    simp [beq_iff_eq]
    exact fun h => hs h.symm
  have h2 : ("updated_at" == k) = false := by
    simp [beq_iff_eq]
    exact fun h => hu h.symm
  simp [lookupEntry, h1, h2]

/-- The prepared document's lookups, field by field. -/
theorem prep_lookup_id (now : Nat) (a : PyDict)
    (blur : List (String × Option Value)) (cnt : Nat)
    (hblur : extract_blur_info (pyGet a "blurInfo") = .ok blur) :
    dlookup (noneFilter (prepEntries now a blur cnt)) "id" = pyGet a "id" := by
  rw [prepDoc_lookup now a blur cnt hblur]
  simp only [prepEntries, preSeg, List.append_assoc]
  rw [lookupEntry_append, lookupEntry_getEntries]
  simp [chunkA]

theorem prep_lookup_price (now : Nat) (a : PyDict)
    (blur : List (String × Option Value)) (cnt : Nat)
    (hblur : extract_blur_info (pyGet a "blurInfo") = .ok blur) :
    dlookup (noneFilter (prepEntries now a blur cnt)) "price" = pyGet a "price" := by
  rw [prepDoc_lookup now a blur cnt hblur]
  simp only [prepEntries, preSeg, List.append_assoc]
  rw [lookupEntry_append, lookupEntry_getEntries,
    lookupEntry_append, lookupEntry_append, lookupEntry_getEntries]
  simp [chunkA, chunkB, lookupEntry]

theorem prep_lookup_adType (now : Nat) (a : PyDict)
    (blur : List (String × Option Value)) (cnt : Nat)
    (hblur : extract_blur_info (pyGet a "blurInfo") = .ok blur) :
    dlookup (noneFilter (prepEntries now a blur cnt)) "adType" = pyGet a "adType" := by
  rw [prepDoc_lookup now a blur cnt hblur]
  simp only [prepEntries, preSeg, List.append_assoc]
  rw [lookupEntry_append, lookupEntry_getEntries,
    lookupEntry_append, lookupEntry_append, lookupEntry_getEntries]
  simp [chunkA, chunkB, lookupEntry]

theorem prep_lookup_photosCount (now : Nat) (a : PyDict)
    (blur : List (String × Option Value)) (cnt : Nat)
    (hblur : extract_blur_info (pyGet a "blurInfo") = .ok blur) :
    dlookup (noneFilter (prepEntries now a blur cnt)) "photosCount" =
      some (Value.vnum cnt) := by
  rw [prepDoc_lookup now a blur cnt hblur]
  simp only [prepEntries, preSeg, List.append_assoc]
  rw [lookupEntry_append, lookupEntry_getEntries,
    lookupEntry_append, lookupEntry_append, lookupEntry_getEntries,
    lookupEntry_append, lookupEntry_append, lookupEntry_getEntries]
  simp [chunkA, chunkB, chunkC, lookupEntry]

theorem prep_lookup_scraped (now : Nat) (a : PyDict)
    (blur : List (String × Option Value)) (cnt : Nat)
    (hblur : extract_blur_info (pyGet a "blurInfo") = .ok blur) :
    dlookup (noneFilter (prepEntries now a blur cnt)) "scraped_at" =
      some (Value.vtime now) := by
  rw [prepDoc_lookup now a blur cnt hblur]
  simp only [prepEntries, preSeg, List.append_assoc]
  rw [lookupEntry_append, lookupEntry_getEntries,
    lookupEntry_append, lookupEntry_append, lookupEntry_getEntries,
    lookupEntry_append, lookupEntry_append, lookupEntry_getEntries,
    lookupEntry_append]
  simp [chunkA, chunkB, chunkC, lookupEntry]

theorem prep_lookup_updated (now : Nat) (a : PyDict)
    (blur : List (String × Option Value)) (cnt : Nat)
    (hblur : extract_blur_info (pyGet a "blurInfo") = .ok blur) :
    dlookup (noneFilter (prepEntries now a blur cnt)) "updated_at" =
      some (Value.vtime now) := by
  rw [prepDoc_lookup now a blur cnt hblur]
  simp only [prepEntries, preSeg, List.append_assoc]
  rw [lookupEntry_append, lookupEntry_getEntries,
    lookupEntry_append, lookupEntry_append, lookupEntry_getEntries,
    lookupEntry_append, lookupEntry_append, lookupEntry_getEntries,
    lookupEntry_append]
  simp [chunkA, chunkB, chunkC, lookupEntry]

theorem prep_lookup_created (now : Nat) (a : PyDict)
    (blur : List (String × Option Value)) (cnt : Nat)
    (hblur : extract_blur_info (pyGet a "blurInfo") = .ok blur) :
    dlookup (noneFilter (prepEntries now a blur cnt)) "created_at" = none := by
  rw [prepDoc_lookup now a blur cnt hblur]
  simp only [prepEntries, preSeg, List.append_assoc]
  rw [lookupEntry_append, lookupEntry_getEntries,
    lookupEntry_append, lookupEntry_append, lookupEntry_getEntries,
    lookupEntry_append, lookupEntry_append, lookupEntry_getEntries,
    lookupEntry_append, lookupEntry_append,
    district_lookupEntry_ne _ _ (by decide),
    blur_lookupEntry_ne _ _ _ hblur (by decide)]
  simp [chunkA, chunkB, chunkC, lookupEntry]

theorem prep_lookup_time_indep (t t' : Nat) (a : PyDict)
    (blur : List (String × Option Value)) (cnt : Nat)
    (hblur : extract_blur_info (pyGet a "blurInfo") = .ok blur) (k : String)
    (hs : k ≠ "scraped_at") (hu : k ≠ "updated_at") :
    dlookup (noneFilter (prepEntries t a blur cnt)) k =
      dlookup (noneFilter (prepEntries t' a blur cnt)) k := by
  rw [prepDoc_lookup t a blur cnt hblur, prepDoc_lookup t' a blur cnt hblur]
  simp only [prepEntries, List.append_assoc]
  simp only [lookupEntry_append]
  rw [lookupEntry_timestamps t k hs hu, lookupEntry_timestamps t' k hs hu]

theorem prepare_ok_elim (now : Nat) (a : PyDict) (d : PyDict)
    (h : prepare_annonce now a = .ok d) :
    ∃ blur cnt, extract_blur_info (pyGet a "blurInfo") = .ok blur ∧
      pyLen (photosValue a) = .ok cnt ∧
      d = noneFilter (prepEntries now a blur cnt) := by
  unfold prepare_annonce at h
  cases hb : extract_blur_info (pyGet a "blurInfo") with
  | error u => rw [hb] at h; simp [Bind.bind, Except.bind] at h
  | ok blur =>
    rw [hb] at h
    cases hl : pyLen (photosValue a) with
    | error u => rw [hl] at h; simp [Bind.bind, Except.bind] at h
    | ok cnt =>
      rw [hl] at h
      simp only [Bind.bind, Except.bind, Except.ok.injEq] at h
      exact ⟨blur, cnt, rfl, rfl, h.symm⟩

theorem prepare_ok_intro (now : Nat) (a : PyDict)
    (blur : List (String × Option Value)) (cnt : Nat)
    (hb : extract_blur_info (pyGet a "blurInfo") = .ok blur)
    (hl : pyLen (photosValue a) = .ok cnt) :
    prepare_annonce now a = .ok (noneFilter (prepEntries now a blur cnt)) := by
  unfold prepare_annonce
  rw [hb, hl]
  simp [Bind.bind, Except.bind]

theorem prepEntries_values_ne_null (now : Nat) (a : PyDict)
    (blur : List (String × Option Value)) (cnt : Nat)
    (hblur : extract_blur_info (pyGet a "blurInfo") = .ok blur)
    (hlen : pyLen (photosValue a) = .ok cnt) :
    ∀ e ∈ prepEntries now a blur cnt, e.2 ≠ some Value.vnull := by
  have hph : photosValue a ≠ Value.vnull := by
    intro hv
    rw [hv] at hlen
    simp [pyLen] at hlen
  intro e he
  unfold prepEntries preSeg at he
  simp only [List.append_assoc, List.mem_append, List.mem_cons,
    List.not_mem_nil, or_false, List.mem_singleton] at he
  rcases he with hA | rfl | hB | (rfl | rfl) | hC | (rfl | rfl) | hd | hb
  · obtain ⟨k, _, rfl⟩ := List.mem_map.mp hA
    exact pyGet_ne_null a k
  · simp
  · obtain ⟨k, _, rfl⟩ := List.mem_map.mp hB
    exact pyGet_ne_null a k
  · simpa using hph
  · simp
  · obtain ⟨k, _, rfl⟩ := List.mem_map.mp hC
    exact pyGet_ne_null a k
  · simp
  · simp
  · exact district_values_ne_null _ e hd
  · exact blur_values_ne_null _ _ hblur e hb

theorem noneFilter_values_ne_null (l : List (String × Option Value))
    (h : ∀ e ∈ l, e.2 ≠ some Value.vnull) :
    ∀ kv ∈ noneFilter l, kv.2 ≠ Value.vnull := by
  intro kv hkv
  obtain ⟨e, he, hfe⟩ := List.mem_filterMap.mp hkv
  cases hv : e.2 with
  | none => rw [hv] at hfe; simp at hfe
  | some v =>
    rw [hv] at hfe
    simp only [Option.some.injEq] at hfe
    have := h e he
    rw [hv] at this
    intro hnull
    apply this
    rw [← hfe] at hnull
    simp at hnull
    rw [hnull]

/-! ## Claim C9: the counts partition the input -/

theorem saveStep_sum (now : Nat) (acc : Store × SaveCounts) (a : PyDict) :
    (saveStep now acc a).2.inserted + (saveStep now acc a).2.updated +
      (saveStep now acc a).2.skipped =
    acc.2.inserted + acc.2.updated + acc.2.skipped + 1 := by
  obtain ⟨store, c⟩ := acc
  rcases hs : saveStep now (store, c) a with ⟨s2, c2⟩
  dsimp only
  unfold saveStep at hs
  dsimp only at hs
  repeat' split at hs
  all_goals (cases hs; simp; try omega)

theorem save_fold_sum (now : Nat) (l : List PyDict) :
    ∀ acc : Store × SaveCounts,
      (l.foldl (saveStep now) acc).2.inserted +
        (l.foldl (saveStep now) acc).2.updated +
        (l.foldl (saveStep now) acc).2.skipped =
      acc.2.inserted + acc.2.updated + acc.2.skipped + l.length := by
  induction l with
  | nil => intro acc; simp
  | cons a rest ih =>
    intro acc
    have hr := ih (saveStep now acc a)
    have hst := saveStep_sum now acc a
    simp only [List.foldl_cons, List.length_cons]
    omega

/-- Claim C9: every record of a batch is classified into exactly one of
the three outcomes, so `inserted + updated + skipped` equals the number
of records, and an empty batch returns all three counts zero with the
store untouched. -/
theorem save_annonces_counts_partition (now : Nat) (store : Store)
    (l : List PyDict) :
    ((save_annonces now store l).2.inserted +
      (save_annonces now store l).2.updated +
      (save_annonces now store l).2.skipped = l.length) ∧
    (l = [] → save_annonces now store l = (store, ⟨0, 0, 0⟩)) := by
  constructor
  · cases l with
    | nil => simp [save_annonces]
    | cons a rest =>
      unfold save_annonces
      simpa using save_fold_sum now (a :: rest) (store, ⟨0, 0, 0⟩)
  · intro h
    subst h
    rfl

/-- Concrete instance of C9 at the empty batch. -/
theorem save_annonces_counts_partition_witness :
    save_annonces 7 [exGood] [] = ([exGood], ⟨0, 0, 0⟩) :=
  (save_annonces_counts_partition 7 [exGood] []).2 rfl

/-! ## Claim C8: a record with a missing or empty natural key is skipped -/

theorem prep_id_of_ok (now : Nat) (a : PyDict) (d : PyDict)
    (h : prepare_annonce now a = .ok d) :
    dlookup d "id" = pyGet a "id" := by
  obtain ⟨blur, cnt, hb, _, rfl⟩ := prepare_ok_elim now a d h
  exact prep_lookup_id now a blur cnt hb

/-- Claim C8: a record whose natural key is missing or empty (falsy) is
rejected by `save_annonces`: the store is unchanged, `skipped` is
incremented by exactly one, and no exception reaches the caller (all
exception paths are caught inside the loop and also count as skipped). -/
theorem save_annonces_missing_key_skipped (now : Nat) (store : Store)
    (a : PyDict) (h : pyTruthyO (pyGet a "id") = false) :
    save_annonces now store [a] = (store, ⟨0, 0, 1⟩) := by
  have hstep : saveStep now (store, ⟨0, 0, 0⟩) a = (store, ⟨0, 0, 1⟩) := by
    unfold saveStep
    dsimp only
    cases hp : prepare_annonce now a with
    | error u => rfl
    | ok d =>
      have hid : dlookup d "id" = pyGet a "id" := prep_id_of_ok now a d hp
      dsimp only
      rw [hid]
      cases hg : pyGet a "id" with
      | none => rfl
      | some v =>
        have hv : pyTruthy v = false := by
          rw [hg] at h
          simpa [pyTruthyO] using h
        simp [hv]
  show [a].foldl (saveStep now) (store, ⟨0, 0, 0⟩) = (store, ⟨0, 0, 1⟩)
  simpa using hstep

/-- Concrete instance of C8: a record with no `id` field at all. -/
theorem save_annonces_missing_key_skipped_witness :
    save_annonces 0 [] [exNoKey] = ([], ⟨0, 0, 1⟩) :=
  save_annonces_missing_key_skipped 0 [] exNoKey rfl

/-! ## Claim C1: behaviour on a duplicate-key insert conflict -/

/-- Claim C1 (amended): when the insert of the upsert hits the unique
index on the natural key — the concurrent-race case, since the record
passed the existence check with `findResult = none` — the loop catches
the `DuplicateKeyError` and counts the record as skipped. It does not
retry as an update, so the record's data is dropped; the conflict is
never surfaced to the caller as an exception (the outcome is an
ordinary `skippedO`, for any input record whatsoever). -/
theorem annonceStep_conflict_skipped (now : Nat) (a : PyDict) :
    annonceStep now a none true = Outcome.skippedO := by
  unfold annonceStep
  repeat' split
  all_goals simp_all

/-- Counterexample to C1 as stated: a fully valid rental record whose
insert hits the uniqueness constraint is counted as skipped, not
resolved as an update (had there been no conflict it would have been
inserted, showing the record itself is acceptable). -/
theorem annonceStep_conflict_not_update :
    annonceStep 0 exGood none true = Outcome.skippedO ∧
    annonceStep 0 exGood none false = Outcome.insertedO ∧
    Outcome.skippedO ≠ Outcome.updatedO := by
  refine ⟨rfl, rfl, by decide⟩

/-! ## Claim C4: retry behaviour of the fetch client -/

/-- Claim C4 (amended): `fetch_annonces` performs exactly one HTTP
attempt per call: the call's result is decided by attempt 0 alone — a
failure immediately increments the error counter and returns `None`,
with no retry, backoff or jitter. -/
theorem fetch_annonces_single_attempt (attempts : Nat → AttemptOutcome)
    (errors : Nat) :
    (attempts 0 = .requestError →
      fetch_annonces attempts errors = (none, errors + 1)) ∧
    (∀ r, attempts 0 = .success r →
      fetch_annonces attempts errors = (some r, errors)) := by
  constructor
  · intro h
    unfold fetch_annonces
    rw [h]
  · intro r h
    unfold fetch_annonces
    rw [h]

/-- Concrete instance of C4 (amended): a failing first attempt yields
`None` and one counted error. -/
theorem fetch_annonces_single_attempt_witness :
    fetch_annonces (fun _ => AttemptOutcome.requestError) 5 = (none, 6) :=
  (fetch_annonces_single_attempt (fun _ => AttemptOutcome.requestError) 5).1 rfl

/-- Counterexample to C4 as stated: the first attempt fails transiently
and a second attempt would have succeeded, yet the call ends at once
with a permanent `None` and a counted error — there is no retry. -/
theorem fetch_annonces_no_retry :
    exAttempts 0 = AttemptOutcome.requestError ∧
    exAttempts 1 = AttemptOutcome.success [("total", Value.vnum 1)] ∧
    fetch_annonces exAttempts 0 = (none, 1) :=
  ⟨rfl, rfl, rfl⟩

/-! ## Claim C10: no `None` fields; `photosCount` is the photo count -/

/-- Claim C10: a document produced by `prepare_annonce` contains no
field with value `None` (they are all dropped by the final filter), and
its `photosCount` field is the length of the record's photo list, zero
when the `photos` key is absent. -/
theorem prepare_annonce_no_none_fields (now : Nat) (a : PyDict) (d : PyDict)
    (h : prepare_annonce now a = .ok d) :
    (∀ kv ∈ d, kv.2 ≠ Value.vnull) ∧
    (dlookup a "photos" = none → dlookup d "photosCount" = some (Value.vnum 0)) ∧
    (∀ ps, dlookup a "photos" = some (Value.vlist ps) →
      dlookup d "photosCount" = some (Value.vnum ps.length)) := by
  obtain ⟨blur, cnt, hb, hl, rfl⟩ := prepare_ok_elim now a d h
  refine ⟨noneFilter_values_ne_null _
    (prepEntries_values_ne_null now a blur cnt hb hl), ?_, ?_⟩
  · intro habs
    have hv : photosValue a = Value.vlist [] := by
      simp [photosValue, habs]
    rw [hv] at hl
    simp only [pyLen, List.length_nil, Except.ok.injEq] at hl
    rw [prep_lookup_photosCount now a blur cnt hb, ← hl]
    rfl
  · intro ps hps
    have hv : photosValue a = Value.vlist ps := by
      simp [photosValue, hps]
    rw [hv] at hl
    simp only [pyLen, Except.ok.injEq] at hl
    rw [prep_lookup_photosCount now a blur cnt hb, ← hl]

/-- Concrete instance of C10: a record with one photo. -/
theorem prepare_annonce_no_none_fields_witness :
    dlookup ((prepare_annonce 0 exPhotos).toOption.getD []) "photosCount" =
      some (Value.vnum 1) :=
  (prepare_annonce_no_none_fields 0 exPhotos
      ((prepare_annonce 0 exPhotos).toOption.getD []) rfl).2.2
    [Value.vstr "p"] rfl

/-! ## Running one `save_annonces` iteration symbolically -/

theorem beqValue_vnull_false (v : Value) (h : pyTruthy v = true) :
    beqValue Value.vnull v = false := by
  cases v <;> simp_all [beqValue, pyTruthy]

theorem passes_elim (d : PyDict) (hpass : passesChecks d = true) :
    pyTruthyO (dlookup d "id") = true ∧
    (∃ pv, dlookup d "price" = some pv ∧ pyTruthy pv = true ∧
      pyLeZero pv = .ok false) ∧
    adTypeRent (dlookup d "adType") = true := by
  simp only [passesChecks, Bool.and_eq_true] at hpass
  obtain ⟨⟨h1, h2⟩, h3⟩ := hpass
  refine ⟨h1, ?_, h3⟩
  cases hpr : dlookup d "price" with
  | none => rw [hpr] at h2; simp at h2
  | some pv =>
    rw [hpr] at h2
    simp only [Bool.and_eq_true] at h2
    obtain ⟨hpv, hle⟩ := h2
    cases hlz : pyLeZero pv with
    | error u => rw [hlz] at hle; simp at hle
    | ok b =>
      cases b with
      | true => rw [hlz] at hle; simp at hle
      | false => exact ⟨pv, rfl, hpv, hlz⟩

theorem insertOne_no_conflict (store : Store) (d : PyDict) (idv : Value)
    (hid : dlookup d "id" = some idv) (ht : pyTruthy idv = true)
    (hf : findOne store idv = none) (v : Value) :
    insertOne store (docSet d "created_at" v) =
      .ok (store ++ [docSet d "created_at" v]) := by
  unfold insertOne
  have hkey : idxKey (docSet d "created_at" v) = idv := by
    unfold idxKey
    rw [dlookup_docSet_ne d "created_at" "id" v (by decide), hid]
  rw [hkey]
  have hall := List.find?_eq_none.mp hf
  have hany : store.any (fun x => beqValue (idxKey x) idv) = false := by
    rw [List.any_eq_false]
    intro x hx
    have hpred := hall x hx
    unfold idxKey
    cases hx2 : dlookup x "id" with
    | none => simp [beqValue_vnull_false idv ht]
    | some w =>
      rw [hx2] at hpred
      simpa using hpred
  rw [hany]
  simp

theorem saveStep_fail (now : Nat) (store : Store) (c : SaveCounts)
    (a : PyDict) (d : PyDict) (hp : prepare_annonce now a = .ok d)
    (hpass : passesChecks d = false) :
    saveStep now (store, c) a =
      (store, ⟨c.inserted, c.updated, c.skipped + 1⟩) := by
  unfold saveStep
  dsimp only
  rw [hp]
  dsimp only
  cases hid : dlookup d "id" with
  | none => rfl
  | some idv =>
    by_cases ht : pyTruthy idv
    case neg => simp [ht]
    case pos =>
      simp only [ht, Bool.not_true, Bool.false_eq_true, if_false]
      cases hpr : dlookup d "price" with
      | none => rfl
      | some pv =>
        by_cases hpv : pyTruthy pv
        case neg => simp [hpv]
        case pos =>
          simp only [hpv, Bool.not_true, Bool.false_eq_true, if_false]
          cases hlz : pyLeZero pv with
          | error u => rfl
          | ok b =>
            cases b with
            | true => rfl
            | false =>
              by_cases hat : adTypeRent (dlookup d "adType")
              case neg => simp [hat]
              case pos =>
                exfalso
                have : passesChecks d = true := by
                  simp [passesChecks, hid, hpr, hlz, pyTruthyO, ht, hpv, hat]
                rw [this] at hpass
                exact Bool.noConfusion hpass

theorem saveStep_pass (now : Nat) (store : Store) (c : SaveCounts)
    (a : PyDict) (d : PyDict) (idv : Value)
    (hp : prepare_annonce now a = .ok d)
    (hid : dlookup d "id" = some idv) (hpass : passesChecks d = true) :
    (∀ x, findOne store idv = some x →
      saveStep now (store, c) a =
        (updateOne store idv d, ⟨c.inserted, c.updated + 1, c.skipped⟩)) ∧
    (findOne store idv = none →
      saveStep now (store, c) a =
        (store ++ [docSet d "created_at" (Value.vtime now)],
         ⟨c.inserted + 1, c.updated, c.skipped⟩)) := by
  obtain ⟨h1, ⟨pv, hpr, hpv, hlz⟩, h3⟩ := passes_elim d hpass
  have ht : pyTruthy idv = true := by
    rw [hid] at h1
    simpa [pyTruthyO] using h1
  constructor
  · intro x hf
    unfold saveStep
    dsimp only
    rw [hp]
    dsimp only
    rw [hid]
    simp only [ht, Bool.not_true, Bool.false_eq_true, if_false]
    rw [hpr]
    simp only [hpv, Bool.not_true, Bool.false_eq_true, if_false]
    rw [hlz]
    simp only [h3, Bool.not_true, Bool.false_eq_true, if_false]
    rw [hf]
  · intro hf
    unfold saveStep
    dsimp only
    rw [hp]
    dsimp only
    rw [hid]
    simp only [ht, Bool.not_true, Bool.false_eq_true, if_false]
    rw [hpr]
    simp only [hpv, Bool.not_true, Bool.false_eq_true, if_false]
    rw [hlz]
    simp only [h3, Bool.not_true, Bool.false_eq_true, if_false]
    rw [hf, insertOne_no_conflict store d idv hid ht hf]

/-! ## Claim C5: which records the ingestion path accepts -/

/-- Claim C5 (amended): `save_annonces` does gate records — one whose
price is missing, falsy, non-positive or non-comparable, or whose
`adType` is not `'rent'`, is counted skipped and not stored — but a
record passing the three gates (truthy id, positive price, rent ad
type) is accepted regardless of every other field value; finer business
validity (price bounds, surface, locality) is left to the downstream
cleaner. -/
theorem save_annonces_gate (now : Nat) (store : Store) (a : PyDict)
    (d : PyDict) (hp : prepare_annonce now a = .ok d) :
    (passesChecks d = false →
      save_annonces now store [a] = (store, ⟨0, 0, 1⟩)) ∧
    (passesChecks d = true →
      (save_annonces now store [a]).2.skipped = 0 ∧
      (save_annonces now store [a]).2.inserted +
        (save_annonces now store [a]).2.updated = 1) := by
  have hsa : save_annonces now store [a] = saveStep now (store, ⟨0, 0, 0⟩) a := by
    show [a].foldl (saveStep now) (store, ⟨0, 0, 0⟩) = _
    simp
  constructor
  · intro h
    rw [hsa, saveStep_fail now store ⟨0, 0, 0⟩ a d hp h]
  · intro h
    obtain ⟨h1, _, _⟩ := passes_elim d h
    cases hid : dlookup d "id" with
    | none => rw [hid] at h1; simp [pyTruthyO] at h1
    | some idv =>
      have hsp := saveStep_pass now store ⟨0, 0, 0⟩ a d idv hp hid h
      cases hf : findOne store idv with
      | some x => rw [hsa, hsp.1 x hf]; simp
      | none => rw [hsa, hsp.2 hf]; simp

/-- Concrete instance of C5 (amended): a record passing the gates is
accepted (here: inserted). -/
theorem save_annonces_gate_witness :
    (save_annonces 0 [] [exGood]).2.skipped = 0 ∧
    (save_annonces 0 [] [exGood]).2.inserted +
      (save_annonces 0 [] [exGood]).2.updated = 1 :=
  (save_annonces_gate 0 [] exGood
    ((prepare_annonce 0 exGood).toOption.getD []) rfl).2 rfl

/-- Counterexample to C5 as stated: two records carrying a natural key —
one with price 0, one with ad type `'buy'` — are both rejected by the
store (counted skipped, nothing persisted), so the ingestion path does
enforce record-level validity on price and ad type. -/
theorem save_annonces_rejects_price_adtype :
    pyTruthyO (pyGet exPrice0 "id") = true ∧
    save_annonces 0 [] [exPrice0] = ([], ⟨0, 0, 1⟩) ∧
    pyTruthyO (pyGet exBuy "id") = true ∧
    save_annonces 0 [] [exBuy] = ([], ⟨0, 0, 1⟩) :=
  ⟨rfl, rfl, rfl, rfl⟩

/-! ## Claim C2: upserting the same record twice -/

/-- Claim C2 (amended): upserting the same accepted record twice leaves
exactly one stored document; the second run is counted as one update
(never an error), `created_at` keeps the first-insert value, and only
the two refresh timestamps — `updated_at` and also `scraped_at` — are
set to the second run's time, every other field being unchanged. -/
theorem save_annonces_upsert_idempotent (t1 t2 : Nat) (a : PyDict)
    (s : String) (d1 : PyDict)
    (hprep : prepare_annonce t1 a = .ok d1)
    (hid : dlookup d1 "id" = some (Value.vstr s))
    (hpass : passesChecks d1 = true) :
    ∃ doc1 doc2,
      save_annonces t1 [] [a] = ([doc1], ⟨1, 0, 0⟩) ∧
      save_annonces t2 [doc1] [a] = ([doc2], ⟨0, 1, 0⟩) ∧
      dlookup doc1 "created_at" = some (Value.vtime t1) ∧
      dlookup doc2 "created_at" = some (Value.vtime t1) ∧
      dlookup doc2 "updated_at" = some (Value.vtime t2) ∧
      dlookup doc2 "scraped_at" = some (Value.vtime t2) ∧
      ∀ k, k ≠ "scraped_at" → k ≠ "updated_at" →
        dlookup doc2 k = dlookup doc1 k := by
  obtain ⟨blur, cnt, hb, hl, hd1⟩ := prepare_ok_elim t1 a d1 hprep
  have hprep2 : prepare_annonce t2 a =
      .ok (noneFilter (prepEntries t2 a blur cnt)) :=
    prepare_ok_intro t2 a blur cnt hb hl
  set d2 : PyDict := noneFilter (prepEntries t2 a blur cnt) with hd2
  have hida : pyGet a "id" = some (Value.vstr s) := by
    rw [← prep_lookup_id t1 a blur cnt hb, ← hd1]
    exact hid
  have hid2 : dlookup d2 "id" = some (Value.vstr s) := by
    rw [hd2, prep_lookup_id t2 a blur cnt hb, hida]
  have hpass2 : passesChecks d2 = true := by
    have heq : passesChecks d2 = passesChecks d1 := by
      unfold passesChecks
      rw [hd1, hd2,
        prep_lookup_id t1 a blur cnt hb, prep_lookup_id t2 a blur cnt hb,
        prep_lookup_price t1 a blur cnt hb, prep_lookup_price t2 a blur cnt hb,
        prep_lookup_adType t1 a blur cnt hb, prep_lookup_adType t2 a blur cnt hb]
    rw [heq, hpass]
  -- first run: insert into the empty store
  have hf1 : findOne [] (Value.vstr s) = none := rfl
  have hs1 := (saveStep_pass t1 [] ⟨0, 0, 0⟩ a d1 (Value.vstr s)
    hprep hid hpass).2 hf1
  set doc1 : PyDict := docSet d1 "created_at" (Value.vtime t1) with hdoc1
  have hsave1 : save_annonces t1 [] [a] = ([doc1], ⟨1, 0, 0⟩) := by
    show [a].foldl (saveStep t1) ([], ⟨0, 0, 0⟩) = ([doc1], ⟨1, 0, 0⟩)
    simp only [List.foldl_cons, List.foldl_nil]
    rw [hs1]
    rfl
  -- second run: the stored document is found and updated
  have hdoc1id : dlookup doc1 "id" = some (Value.vstr s) := by
    rw [hdoc1, dlookup_docSet_ne d1 "created_at" "id" _ (by decide), hid]
  have hbeq : beqValue (Value.vstr s) (Value.vstr s) = true := by
    simp [beqValue]
  have hfind : findOne [doc1] (Value.vstr s) = some doc1 := by
    unfold findOne
    rw [List.find?_cons_of_pos]
    dsimp only
    rw [hdoc1id]
    exact hbeq
  have hs2 := (saveStep_pass t2 [doc1] ⟨0, 0, 0⟩ a d2 (Value.vstr s)
    hprep2 hid2 hpass2).1 doc1 hfind
  have hupd : updateOne [doc1] (Value.vstr s) d2 = [setFields doc1 d2] := by
    unfold updateOne
    rw [hdoc1id]
    dsimp only
    rw [hbeq]
    rfl
  set doc2 : PyDict := setFields doc1 d2 with hdoc2
  have hsave2 : save_annonces t2 [doc1] [a] = ([doc2], ⟨0, 1, 0⟩) := by
    show [a].foldl (saveStep t2) ([doc1], ⟨0, 0, 0⟩) = ([doc2], ⟨0, 1, 0⟩)
    simp only [List.foldl_cons, List.foldl_nil]
    rw [hs2, hupd]
  have hnd2 : (d2.map Prod.fst).Nodup := prepDoc_keys_nodup t2 a blur cnt hb
  have hdoc2look : ∀ k, dlookup doc2 k =
      match dlookup d2 k with
      | some v => some v
      | none => dlookup doc1 k :=
    fun k => dlookup_setFields_nodup doc1 d2 k hnd2
  have hc1 : dlookup doc1 "created_at" = some (Value.vtime t1) := by
    rw [hdoc1, dlookup_docSet_self]
  refine ⟨doc1, doc2, hsave1, hsave2, hc1, ?_, ?_, ?_, ?_⟩
  · rw [hdoc2look "created_at", hd2, prep_lookup_created t2 a blur cnt hb, hc1]
  · rw [hdoc2look "updated_at", hd2, prep_lookup_updated t2 a blur cnt hb]
  · rw [hdoc2look "scraped_at", hd2, prep_lookup_scraped t2 a blur cnt hb]
  · intro k hks hku
    rw [hdoc2look k]
    have hti : dlookup d2 k = dlookup d1 k := by
      rw [hd1, hd2]
      exact prep_lookup_time_indep t2 t1 a blur cnt hb k hks hku
    cases hc : dlookup d1 k with
    | some v =>
      rw [hti, hc]
      by_cases hkc : k = "created_at"
      · exfalso
        rw [hkc, hd1, prep_lookup_created t1 a blur cnt hb] at hc
        exact Option.noConfusion hc
      · rw [hdoc1, dlookup_docSet_ne d1 "created_at" k _ hkc, hc]
    | none =>
      rw [hti, hc]

/-- Concrete instance of C2 (amended): the valid record, upserted at
times 0 then 1, is stored once and counted as one update the second
time. -/
theorem save_annonces_upsert_idempotent_witness :
    (save_annonces 0 [] [exGood]).2 = ⟨1, 0, 0⟩ ∧
    (save_annonces 1 (save_annonces 0 [] [exGood]).1 [exGood]).2 = ⟨0, 1, 0⟩ := by
  obtain ⟨doc1, doc2, h1, h2, _⟩ :=
    save_annonces_upsert_idempotent 0 1 exGood "X1"
      ((prepare_annonce 0 exGood).toOption.getD []) rfl rfl rfl
  rw [h1]
  refine ⟨rfl, ?_⟩
  show (save_annonces 1 [doc1] [exGood]).2 = ⟨0, 1, 0⟩
  rw [h2]

/-- Counterexample to C2 as stated: re-upserting the identical record
also changes `scraped_at` (from time 0 to time 1), so `updated_at` is
not the only field the second upsert modifies. -/
theorem save_annonces_second_upsert_changes_scraped :
    dlookup (((save_annonces 0 [] [exGood]).1).headD []) "scraped_at" =
      some (Value.vtime 0) ∧
    dlookup (((save_annonces 1 (save_annonces 0 [] [exGood]).1 [exGood]).1).headD [])
        "scraped_at" = some (Value.vtime 1) :=
  ⟨rfl, rfl⟩

/-! ## Claim C6: the paging loop terminates for the reasons it reports -/

theorem scrape_pages_spec (now : Nat) (fetch : Nat → Option ApiResponse) :
    ∀ fuel pageNum fromIndex store stats tot,
      (scrape_pages now fetch fuel pageNum fromIndex store stats tot).finalPage
          ≤ pageNum + fuel ∧
      ((scrape_pages now fetch fuel pageNum fromIndex store stats tot).reason =
          .maxPagesExhausted →
        (scrape_pages now fetch fuel pageNum fromIndex store stats tot).finalPage =
          pageNum + fuel) ∧
      ((scrape_pages now fetch fuel pageNum fromIndex store stats tot).reason =
          .noResponse →
        fetch (scrape_pages now fetch fuel pageNum fromIndex store stats tot).finalPage
          = none) ∧
      ((scrape_pages now fetch fuel pageNum fromIndex store stats tot).reason =
          .emptyPage →
        ∃ resp,
          fetch (scrape_pages now fetch fuel pageNum fromIndex store stats tot).finalPage
            = some resp ∧ resp.realEstateAds = []) ∧
      ((scrape_pages now fetch fuel pageNum fromIndex store stats tot).reason =
          .reachedTotal →
        ∃ resp,
          fetch (scrape_pages now fetch fuel pageNum fromIndex store stats tot).finalPage
            = some resp ∧ resp.realEstateAds ≠ [] ∧
          (scrape_pages now fetch fuel pageNum fromIndex store stats tot).fromIndex
            ≥ resp.total) := by
  intro fuel
  induction fuel with
  | zero =>
    intro pageNum fromIndex store stats tot
    simp [scrape_pages]
  | succ fuel ih =>
    intro pageNum fromIndex store stats tot
    unfold scrape_pages
    cases hf : fetch pageNum with
    | none =>
      dsimp only
      exact ⟨by omega, by simp, fun _ => hf, by simp, by simp⟩
    | some resp =>
      dsimp only
      cases ha : resp.realEstateAds with
      | nil =>
        dsimp only
        exact ⟨by omega, by simp, by simp, fun _ => ⟨resp, hf, ha⟩, by simp⟩
      | cons r rest =>
        dsimp only
        by_cases hge : fromIndex + (r :: rest).length ≥ resp.total
        · rw [if_pos hge]
          dsimp only
          refine ⟨by omega, by simp, by simp, by simp, fun _ => ⟨resp, hf, ?_, hge⟩⟩
          rw [ha]
          simp
        · rw [if_neg hge]
          have hih := ih (pageNum + 1) (fromIndex + (r :: rest).length)
            (save_annonces now store (r :: rest)).1
            ⟨stats.inserted + (save_annonces now store (r :: rest)).2.inserted,
             stats.updated + (save_annonces now store (r :: rest)).2.updated,
             stats.skipped + (save_annonces now store (r :: rest)).2.skipped⟩
            (tot + (r :: rest).length)
          refine ⟨by have := hih.1; omega, ?_, hih.2.2.1, hih.2.2.2.1,
            hih.2.2.2.2⟩
          intro hr
          rw [hih.2.1 hr]
          omega

/-- Claim C6: for every sequence of (successful) API responses, the
slice crawl terminates — the final page number never exceeds
`max_pages + 1` — and it stops exactly when the page is empty, or the
offset has reached the response's reported `total`, or the page budget
is exhausted (the no-response exit cannot happen when every fetch
answers). -/
theorem scrape_with_filters_terminates (now : Nat)
    (fetch : Nat → Option ApiResponse) (maxPages : Nat)
    (hresp : ∀ n, (fetch n).isSome) :
    (scrape_with_filters now fetch maxPages).finalPage ≤ maxPages + 1 ∧
    stopOk fetch maxPages (scrape_with_filters now fetch maxPages) ∧
    (scrape_with_filters now fetch maxPages).reason ≠ StopReason.noResponse := by
  have hspec := scrape_pages_spec now fetch maxPages 1 0 [] ⟨0, 0, 0⟩ 0
  have hnr : (scrape_with_filters now fetch maxPages).reason ≠
      StopReason.noResponse := by
    intro hr
    have hnone := hspec.2.2.1 hr
    have hs := hresp (scrape_with_filters now fetch maxPages).finalPage
    unfold scrape_with_filters at hs
    rw [hnone] at hs
    simp at hs
  refine ⟨by have := hspec.1; unfold scrape_with_filters; omega, ?_, hnr⟩
  unfold stopOk
  cases hr : (scrape_with_filters now fetch maxPages).reason with
  | noResponse => exact absurd hr hnr
  | emptyPage => exact hspec.2.2.2.1 hr
  | reachedTotal => exact hspec.2.2.2.2 hr
  | maxPagesExhausted =>
    have := hspec.2.1 hr
    dsimp only
    unfold scrape_with_filters
    omega

/-- Concrete instance of C6: a backend always returning an empty page
stops the crawl on the first page. -/
theorem scrape_with_filters_terminates_witness :
    (scrape_with_filters 0 exFetchEmpty 5).finalPage ≤ 6 ∧
    stopOk exFetchEmpty 5 (scrape_with_filters 0 exFetchEmpty 5) ∧
    (scrape_with_filters 0 exFetchEmpty 5).reason ≠ StopReason.noResponse :=
  scrape_with_filters_terminates 0 exFetchEmpty 5 (fun _ => rfl)

/-! ## Claim C7: how many items a slice crawl retrieves -/

theorem scrape_pages_window (now : Nat) (fetch : Nat → Option ApiResponse)
    (T L : Nat)
    (hr : ∀ n resp, fetch n = some resp →
      resp.total = T ∧ resp.realEstateAds.length ≤ L) :
    ∀ fuel pageNum fromIndex store stats tot,
      fromIndex = 0 ∨ fromIndex < T →
      (scrape_pages now fetch fuel pageNum fromIndex store stats tot).fromIndex
        ≤ T + L := by
  intro fuel
  induction fuel with
  | zero =>
    intro pageNum fromIndex store stats tot hinv
    simp only [scrape_pages]
    omega
  | succ fuel ih =>
    intro pageNum fromIndex store stats tot hinv
    unfold scrape_pages
    cases hf : fetch pageNum with
    | none => dsimp only; omega
    | some resp =>
      dsimp only
      obtain ⟨hT, hL⟩ := hr pageNum resp hf
      cases ha : resp.realEstateAds with
      | nil => dsimp only; omega
      | cons r rest =>
        rw [ha] at hL
        dsimp only
        by_cases hge : fromIndex + (r :: rest).length ≥ resp.total
        · rw [if_pos hge]
          dsimp only
          omega
        · rw [if_neg hge]
          apply ih
          right
          omega

/-- Claim C7 (amended): when every response of the slice declares the
same `total` `T` and carries at most `L` items per page, the crawl
retrieves at most `T + L` items: the loop only requests a page while
the offset is still below `T`, so only the final page can overshoot,
and by at most one page's worth. -/
theorem scrape_with_filters_window (now : Nat)
    (fetch : Nat → Option ApiResponse) (maxPages T L : Nat)
    (hr : ∀ n resp, fetch n = some resp →
      resp.total = T ∧ resp.realEstateAds.length ≤ L) :
    (scrape_with_filters now fetch maxPages).fromIndex ≤ T + L :=
  scrape_pages_window now fetch T L hr maxPages 1 0 [] ⟨0, 0, 0⟩ 0 (Or.inl rfl)

/-- Concrete instance of C7 (amended): an all-empty backend retrieves
nothing. -/
theorem scrape_with_filters_window_witness :
    (scrape_with_filters 0 exFetchEmpty 3).fromIndex ≤ 0 + 0 :=
  scrape_with_filters_window 0 exFetchEmpty 3 0 0
    (fun n resp h => by
      cases h
      exact ⟨rfl, by simp⟩)

/-- Counterexample to C7 as stated: a backend that always reports
`total = 1` but returns two records per page makes the crawl retrieve
2 items — more than the reported total. -/
theorem scrape_retrieves_more_than_total :
    exFetchOver 1 = some ⟨[[], []], 1⟩ ∧
    (scrape_with_filters 0 exFetchOver 100).fromIndex = 2 ∧
    2 > 1 :=
  ⟨rfl, rfl, by omega⟩

/-! ## Claim C3: the Partition Planner's leaves -/

theorem chainFrom_append (low mid high : Nat) (A B : List (Nat × Nat))
    (hA : chainFrom low mid A = true) (hB : chainFrom mid high B = true) :
    chainFrom low high (A ++ B) = true := by
  induction A generalizing low with
  | nil =>
    have : low = mid := by simpa [chainFrom] using hA
    simpa [this] using hB
  | cons p rest ih =>
    obtain ⟨a, b⟩ := p
    simp only [chainFrom, Bool.and_eq_true, beq_iff_eq, decide_eq_true_eq] at hA
    obtain ⟨⟨ha, hab⟩, hrest⟩ := hA
    simp only [List.cons_append, chainFrom, Bool.and_eq_true, beq_iff_eq,
      decide_eq_true_eq]
    exact ⟨⟨ha, hab⟩, ih b hrest⟩

theorem chainFrom_le (L : List (Nat × Nat)) :
    ∀ low high, chainFrom low high L = true → low ≤ high := by
  induction L with
  | nil =>
    intro low high h
    have : low = high := by simpa [chainFrom] using h
    omega
  | cons p rest ih =>
    obtain ⟨a, b⟩ := p
    intro low high h
    simp only [chainFrom, Bool.and_eq_true, beq_iff_eq, decide_eq_true_eq] at h
    obtain ⟨⟨ha, hab⟩, hrest⟩ := h
    have := ih b high hrest
    omega

theorem chainFrom_bounds (L : List (Nat × Nat)) :
    ∀ low high, chainFrom low high L = true →
      ∀ p ∈ L, low ≤ p.1 ∧ p.1 < p.2 ∧ p.2 ≤ high := by
  induction L with
  | nil => intro low high _ p hp; simp at hp
  | cons q rest ih =>
    obtain ⟨a, b⟩ := q
    intro low high h p hp
    simp only [chainFrom, Bool.and_eq_true, beq_iff_eq, decide_eq_true_eq] at h
    obtain ⟨⟨ha, hab⟩, hrest⟩ := h
    rcases List.mem_cons.mp hp with rfl | hmem
    · have := chainFrom_le rest b high hrest
      subst ha
      exact ⟨le_refl _, hab, this⟩
    · have := ih b high hrest p hmem
      omega

theorem chainFrom_pairwise (low high : Nat) (L : List (Nat × Nat))
    (h : chainFrom low high L = true) :
    L.Pairwise (fun p q => p.2 ≤ q.1) := by
  induction L generalizing low with
  | nil => exact List.Pairwise.nil
  | cons q rest ih =>
    obtain ⟨a, b⟩ := q
    simp only [chainFrom, Bool.and_eq_true, beq_iff_eq, decide_eq_true_eq] at h
    obtain ⟨⟨ha, hab⟩, hrest⟩ := h
    exact List.Pairwise.cons
      (fun p hp => (chainFrom_bounds rest b high hrest p hp).1)
      (ih b hrest)

theorem chainFrom_union (low high : Nat) (L : List (Nat × Nat))
    (h : chainFrom low high L = true) :
    unionRanges L = Set.Ico low high := by
  induction L generalizing low with
  | nil =>
    have : low = high := by simpa [chainFrom] using h
    simp [unionRanges, this]
  | cons q rest ih =>
    obtain ⟨a, b⟩ := q
    simp only [chainFrom, Bool.and_eq_true, beq_iff_eq, decide_eq_true_eq] at h
    obtain ⟨⟨ha, hab⟩, hrest⟩ := h
    have hbh := chainFrom_le rest b high hrest
    subst ha
    show Set.Ico a b ∪ unionRanges rest = Set.Ico a high
    rw [ih b hrest, Set.Ico_union_Ico_eq_Ico (by omega) hbh]

theorem plan_chain (probe : Nat → Nat → Option Nat) (W minSlice : Nat)
    (hms : 1 ≤ minSlice) (hp : ∀ l h, probe l h ≠ some 0) :
    ∀ gas low high, low < high →
      chainFrom low high (plan probe W minSlice gas low high) = true := by
  intro gas
  induction gas with
  | zero =>
    intro low high hlh
    unfold plan
    cases hpc : probe low high with
    | none => simp [chainFrom, hlh]
    | some c =>
      cases c with
      | zero => exact absurd hpc (hp low high)
      | succ c => simp [chainFrom, hlh]
  | succ gas ih =>
    intro low high hlh
    unfold plan
    cases hpc : probe low high with
    | none =>
      dsimp only
      by_cases hsl : high - low ≤ minSlice
      · rw [if_pos hsl]
        simp [chainFrom, hlh]
      · rw [if_neg hsl]
        have hmid1 : low < low + (high - low) / 2 := by omega
        have hmid2 : low + (high - low) / 2 < high := by omega
        exact chainFrom_append _ _ _ _ _ (ih low _ hmid1) (ih _ high hmid2)
    | some c =>
      cases c with
      | zero => exact absurd hpc (hp low high)
      | succ c =>
        dsimp only
        by_cases hw : c + 1 ≤ W
        · rw [if_pos hw]
          simp [chainFrom, hlh]
        · rw [if_neg hw]
          by_cases hsl : high - low ≤ minSlice
          · rw [if_pos hsl]
            simp [chainFrom, hlh]
          · rw [if_neg hsl]
            have hmid1 : low < low + (high - low) / 2 := by omega
            have hmid2 : low + (high - low) / 2 < high := by omega
            exact chainFrom_append _ _ _ _ _ (ih low _ hmid1) (ih _ high hmid2)

/-- Claim C3 (amended): provided the prober never reports a zero count
for any subrange (and the minimum slice width is at least 1 so the
midpoint split is proper), the Planner's leaves for a coarse range
`[low, high)` form an ascending, contiguous, non-overlapping chain
whose union is exactly the coarse range — at every recursion budget,
including the capped floor, which keeps the whole range as one leaf. A
zero-count subrange, however, is dropped and leaves a gap. -/
theorem plan_coverage (probe : Nat → Nat → Option Nat)
    (W minSlice gas low high : Nat) (hms : 1 ≤ minSlice)
    (hp : ∀ l h, probe l h ≠ some 0) (hlh : low < high) :
    chainFrom low high (plan probe W minSlice gas low high) = true ∧
    (plan probe W minSlice gas low high).Pairwise (fun p q => p.2 ≤ q.1) ∧
    unionRanges (plan probe W minSlice gas low high) = Set.Ico low high := by
  have hc := plan_chain probe W minSlice hms hp gas low high hlh
  exact ⟨hc, chainFrom_pairwise low high _ hc, chainFrom_union low high _ hc⟩

/-- Concrete instance of C3 (amended): a never-zero prober on `[0, 5)`. -/
theorem plan_coverage_witness :
    chainFrom 0 5 (plan probeWidth 2400 1 10 0 5) = true ∧
    unionRanges (plan probeWidth 2400 1 10 0 5) = Set.Ico 0 5 := by
  have h := plan_coverage probeWidth 2400 1 10 0 5 (by decide)
    (fun l hi => by simp [probeWidth]) (by decide)
  exact ⟨h.1, h.2.2⟩

/-- Counterexample to C3 as stated: a subrange probed at count zero is
dropped (spec §4.3 step 1), so the returned leaves need not cover the
coarse range — here the whole plan is empty while the coarse range
`[0, 100)` is not. This is not the capped-coverage edge case (no
recursion floor was hit). -/
theorem plan_drops_empty_ranges :
    plan probe0 2400 1 30 0 100 = [] ∧
    (0 : Nat) ∈ Set.Ico 0 100 ∧
    (0 : Nat) ∉ unionRanges (plan probe0 2400 1 30 0 100) := by
  refine ⟨rfl, by simp, ?_⟩
  rw [show plan probe0 2400 1 30 0 100 = [] from rfl]
  simp [unionRanges]
